import Mathlib

/-!
Verification of the astrobot-site place-selection / report-request flow

Shallow embedding of the two components specified in `spec.md`:

* `AstrologyForm` (source: `src/unnamed/part_001`): the `getTimezoneOffsetISO`
  helper, the `isFormValid` guard, and the `onSubmit` handler with its
  webhook call and content-type branching.
* `PlaceAutocomplete` (source: `src/src/components/PlaceAutocomplete.tsx`):
  the debounced search effect, `formatSuggestion`, `getTimezone`,
  `selectSuggestion`, `handleKeyDown`, and the surrounding component state.

Conventions of the embedding:

* JavaScript strings are Lean `String`s; `a || b` on strings (the empty
  string is falsy) is `jsOr`/`jsOrOpt`; `s.includes(t)` is `jsIncludes`.
* A JS value that may be `undefined` is an `Option`.
* Instants are epoch milliseconds (`ℤ`); UTC offsets of time zones are in
  minutes east of UTC (`ℤ`).  The browser environment supplies the local
  zone's offset and the IANA database lookup as explicit parameters.
* `fetch` outcomes are an explicit `Except Unit FetchResponse` oracle;
  a thrown error / rejected promise is `.error ()`.
* The `tz-lookup` library is an oracle `ℚ → ℚ → Option String`; `none`
  models a throw, `some r` a returned value (`r = ""` models a falsy result).
* Latitude/longitude are carried as `ℚ`; no claim performs arithmetic on
  them, they are only passed through from suggestion to place to payload.
-/

namespace Astrobot

/-- JS `String(n).padStart(2, '0')` applied to a decimal rendering. -/
def padStart2 (s : String) : String :=
  if 2 ≤ s.length then s else String.mk (List.replicate (2 - s.length) '0') ++ s

/-- Pad a decimal string to 4 characters with leading zeros (date-fns `yyyy`). -/
def padStart4 (s : String) : String :=
  if 4 ≤ s.length then s else String.mk (List.replicate (4 - s.length) '0') ++ s

/-- JS `a || b` where `a` is a string: the empty string is falsy. -/
def jsOr (a b : String) : String := if a = "" then b else a

/-- JS `a || b` where `a : string | undefined`. -/
def jsOrOpt (a : Option String) (b : String) : String :=
  match a with
  | none => b
  | some s => jsOr s b

/-- JS `a || undefined` where `a : string | undefined` (used for `admin`). -/
def jsOrUndef (a : Option String) : Option String :=
  match a with
  | none => none
  | some s => if s = "" then none else some s

/-- JS `hay.includes(needle)` (substring containment). -/
def jsIncludes (hay needle : String) : Bool :=
  hay.toList.tails.any (fun l => needle.toList.isPrefixOf l)

/-- JS `Math.round`: round half toward positive infinity. -/
def jsRound (q : ℚ) : ℤ := Int.floor (q + 1 / 2)

/-!
The function `getTimezoneOffsetISO` (src/unnamed/part_001 lines 66–76).

```js
function getTimezoneOffsetISO(timezone, date = new Date()) {
  const localDate = new Date(date.toLocaleString('en-US', { timeZone: timezone }));
  const offsetMinutes = Math.round(
    (localDate.getTime() - date.getTime()) / 60000 + date.getTimezoneOffset());
  const sign = offsetMinutes <= 0 ? '+' : '-';
  const absMinutes = Math.abs(offsetMinutes);
  const hours = String(Math.floor(absMinutes / 60)).padStart(2, '0');
  const minutes = String(absMinutes % 60).padStart(2, '0');
  return `${sign}${hours}:${minutes}`;
}
```

`date.toLocaleString('en-US', { timeZone })` renders the wall-clock time of
instant `t` in the requested zone at one-second precision (milliseconds are
dropped), and `new Date(string)` re-parses that wall-clock reading in the
*browser's local* zone.  With `zoneOff` the requested zone's offset and
`localOff` the browser's offset (both minutes east of UTC, assumed constant
over the sub-hour window involved), the reparsed epoch value is
`⌊(t + zoneOff·60000) / 1000⌋·1000 − localOff·60000`.
`date.getTimezoneOffset()` returns `−localOff`.

The JS expression `Math.round(Δ / 60000 + g)` (with `Δ`, `g` integers) is
written below as `(Δ + 60000·g + 30000).fdiv 60000`; the lemma
`jsRound_div60000` proves this equal to the rational-arithmetic original.
-/

/-- Epoch milliseconds of `new Date(date.toLocaleString('en-US', {timeZone}))`. -/
def jsLocaleRoundTrip (t zoneOff localOff : ℤ) : ℤ :=
  ((t + zoneOff * 60000).fdiv 1000) * 1000 - localOff * 60000

/-- The source's `getTimezoneOffsetISO`, with the zone and browser offsets
(minutes east of UTC) and the instant made explicit environment inputs. -/
def getTimezoneOffsetISO (zoneOff localOff t : ℤ) : String :=
  let localDate := jsLocaleRoundTrip t zoneOff localOff
  let offsetMinutes := (localDate - t + 60000 * (-localOff) + 30000).fdiv 60000
  let sign := if offsetMinutes ≤ 0 then "+" else "-"
  let absMinutes := offsetMinutes.natAbs
  let hours := padStart2 (toString (absMinutes / 60))
  let minutes := padStart2 (toString (absMinutes % 60))
  sign ++ hours ++ ":" ++ minutes

/-- Modelled from the spec wording of C1: the signed `±HH:MM` rendering of a
zone's actual UTC offset (minutes east of UTC), with `+` for zones ahead of
UTC.  This is the value the claim says `getTimezoneOffsetISO` returns. -/
def specOffsetString (off : ℤ) : String :=
  (if 0 ≤ off then "+" else "-")
    ++ padStart2 (toString (off.natAbs / 60)) ++ ":"
    ++ padStart2 (toString (off.natAbs % 60))

/-- Calendar fields of the picked birth date (a JS `Date` at local midnight). -/
structure Ymd where
  year : ℕ
  month : ℕ
  day : ℕ
deriving DecidableEq

/-- date-fns `format(data.birthDate, 'yyyy-MM-dd')`. -/
def formatYMD (d : Ymd) : String :=
  padStart4 (toString d.year) ++ "-" ++ padStart2 (toString d.month) ++ "-"
    ++ padStart2 (toString d.day)

/-!
The `PlaceAutocomplete` data model
(src/src/components/PlaceAutocomplete.tsx lines 12–46)
-/

/-- The `Place` interface: the resolved geocoding result. -/
structure Place where
  city : String
  admin : Option String
  country : String
  countryCode : String
  lat : ℚ
  lon : ℚ
  timezone : String
  provider : String
  placeId : String
deriving DecidableEq

/-- The optional nested `timezone?: { name?: string }` of a suggestion. -/
structure TzInfo where
  name : Option String
deriving DecidableEq

/-- The `properties` object of a Geoapify feature. -/
structure SuggestionProps where
  formatted : String
  name : Option String
  city : Option String
  state : Option String
  country : Option String
  country_code : Option String
  lat : ℚ
  lon : ℚ
  place_id : String
  timezone : Option TzInfo
deriving DecidableEq

/-- A `PlaceSuggestion`: a feature returned by the geocoding provider. -/
structure PlaceSuggestion where
  properties : SuggestionProps
deriving DecidableEq

/-- The helper `formatSuggestion` (PlaceAutocomplete.tsx lines 96–103):
`city, admin, country` with the admin segment omitted when falsy. -/
def formatSuggestion (suggestion : PlaceSuggestion) : String :=
  let properties := suggestion.properties
  let city := jsOrOpt properties.city (jsOrOpt properties.name "")
  let admin := jsOrOpt properties.state ""
  let country := jsOrOpt properties.country ""
  city ++ (if admin = "" then "" else ", " ++ admin) ++ ", " ++ country

/-- The `try { return tzlookup(lat, lon) || 'UTC' } catch { return 'UTC' }`
body of `getTimezone`: `none` from the oracle models a thrown exception,
`some ""` a falsy return value. -/
def tzLookupOrUTC (tzl : ℚ → ℚ → Option String) (lat lon : ℚ) : String :=
  match tzl lat lon with
  | none => "UTC"
  | some r => jsOr r "UTC"

/-- The helper `getTimezone` (PlaceAutocomplete.tsx lines 105–114).  The JS truthiness
test `if (apiTimezone) return apiTimezone;` passes only for a present,
non-empty name.  The function is total: an exception inside the lookup is the
oracle's `none` and is turned into `"UTC"`, never propagated. -/
def getTimezone (tzl : ℚ → ℚ → Option String) (lat lon : ℚ)
    (apiTimezone : Option String) : String :=
  match apiTimezone with
  | some s => if s = "" then tzLookupOrUTC tzl lat lon else s
  | none => tzLookupOrUTC tzl lat lon

/-- The `Place` constructed by `selectSuggestion`
(PlaceAutocomplete.tsx lines 122–132). -/
def mkPlace (tzl : ℚ → ℚ → Option String) (suggestion : PlaceSuggestion) : Place :=
  let properties := suggestion.properties
  { city := jsOrOpt properties.city (jsOrOpt properties.name "")
  , admin := jsOrUndef properties.state
  , country := jsOrOpt properties.country ""
  , countryCode := jsOrOpt properties.country_code ""
  , lat := properties.lat
  , lon := properties.lon
  , timezone := getTimezone tzl properties.lat properties.lon
      (properties.timezone.bind (fun z => z.name))
  , provider := "geoapify"
  , placeId := properties.place_id }

/-!
Component state and event semantics.

State of the `PlaceAutocomplete` component together with the two pieces of
`AstrologyForm` state it drives: the controlled text value (the form's
`birthPlace` field), the resolved `selectedPlace`, and the presence of the
`birthPlace` field error.  `useState` initial values are those of the source
(PlaceAutocomplete.tsx lines 56–59, part_001 line 79).
-/

/-- Combined component state of `PlaceAutocomplete` + the place-related state
of `AstrologyForm`. -/
structure AppState where
  value : String
  suggestions : List PlaceSuggestion
  isLoading : Bool
  isOpen : Bool
  selectedIndex : ℤ
  selectedPlace : Option Place
  birthPlaceError : Bool
deriving DecidableEq

/-- Initial state: empty text, no suggestions, dropdown closed, index −1,
no resolved place, no field error. -/
def initState : AppState :=
  { value := ""
  , suggestions := []
  , isLoading := false
  , isOpen := false
  , selectedIndex := -1
  , selectedPlace := none
  , birthPlaceError := false }

/-- The handler `selectSuggestion` (PlaceAutocomplete.tsx lines 116–136) together with the
caller's `onPlaceSelect` (part_001 lines 328–333): overwrite the text with the
formatted label, resolve the `Place`, clear the field error (the place is
non-null), close the dropdown.  `selectedIndex` is not touched. -/
def selectSuggestion (tzl : ℚ → ℚ → Option String) (suggestion : PlaceSuggestion)
    (st : AppState) : AppState :=
  { st with
    value := formatSuggestion suggestion
  , selectedPlace := some (mkPlace tzl suggestion)
  , birthPlaceError := false
  , isOpen := false }

/-- Keys handled by `handleKeyDown`; `other` stands for every key without a
`switch` case. -/
inductive Key
  | down
  | up
  | enter
  | escape
  | other
deriving DecidableEq

/-- The handler `handleKeyDown` (PlaceAutocomplete.tsx lines 138–163).  When the dropdown
is closed every key is a no-op (`if (!isOpen) return`).  `Enter` guards on
`selectedIndex >= 0 && suggestions[selectedIndex]`, i.e. the index is
non-negative and an element exists at it. -/
def handleKeyDown (tzl : ℚ → ℚ → Option String) (k : Key) (st : AppState) : AppState :=
  if st.isOpen = false then st
  else
    match k with
    | .down =>
        { st with selectedIndex :=
            if st.selectedIndex < (st.suggestions.length : ℤ) - 1 then
              st.selectedIndex + 1
            else st.selectedIndex }
    | .up =>
        { st with selectedIndex :=
            if 0 < st.selectedIndex then st.selectedIndex - 1 else -1 }
    | .enter =>
        if 0 ≤ st.selectedIndex then
          match st.suggestions.get? st.selectedIndex.toNat with
          | some suggestion => selectSuggestion tzl suggestion st
          | none => st
        else st
    | .escape => { st with isOpen := false, selectedIndex := -1 }
    | .other => st

/-- Modelled from the spec words of C8: the keyboard transition table.
`Down`: index advances by 1 clamped to the last suggestion.
`Up`: index decreases by 1 clamped to −1.
`Enter`: if a suggestion is highlighted (non-negative index pointing at an
existing suggestion), perform Selection on it.
`Escape`: close the dropdown, reset the index to −1.
While the dropdown is closed, every key is a no-op. -/
def specKeyDown (tzl : ℚ → ℚ → Option String) (k : Key) (st : AppState) : AppState :=
  if st.isOpen = false then st
  else
    match k with
    | .down =>
        { st with selectedIndex :=
            (min (st.selectedIndex + 1) ((st.suggestions.length : ℤ) - 1)) }
    | .up =>
        { st with selectedIndex := (max (st.selectedIndex - 1) (-1)) }
    | .enter =>
        if 0 ≤ st.selectedIndex then
          match st.suggestions.get? st.selectedIndex.toNat with
          | some suggestion => selectSuggestion tzl suggestion st
          | none => st
        else st
    | .escape => { st with isOpen := false, selectedIndex := -1 }
    | .other => st

/-- Completion of one debounced search (the `useEffect` body,
PlaceAutocomplete.tsx lines 65–94).  Result: the new state and the number of
geocoding requests issued.  A query below 2 characters clears the suggestions
and closes the dropdown without a request.  Otherwise exactly one request is
issued; on success the suggestions are replaced (`data.features || []`), the
dropdown opens and the index resets to −1; on failure (rejected fetch or
`!response.ok`) the suggestions are cleared — the dropdown flag and the
index are not touched.  Both paths run `setIsLoading(false)` in `finally`. -/
inductive SearchOutcome
  | success (features : List PlaceSuggestion)
  | failure
deriving DecidableEq

/-- The search effect, as a function of the debounced query, the network
outcome, and the current state. -/
def searchEffect (debouncedSearchTerm : String) (o : SearchOutcome)
    (st : AppState) : AppState × ℕ :=
  if debouncedSearchTerm.length < 2 then
    ({ st with suggestions := [], isOpen := false }, 0)
  else
    match o with
    | .success features =>
        ({ st with suggestions := features, isOpen := true, selectedIndex := -1
                 , isLoading := false }, 1)
    | .failure =>
        ({ st with suggestions := [], isLoading := false }, 1)

/-- Events that drive the combined component state.
`edit` is typing in the input (its `onChange` handler, PlaceAutocomplete.tsx
lines 182–185, calls `onChange` and then `onPlaceSelect(null)`).
`search` is the completion of one debounced search effect.
`key` is a key press.  `click` is a pointer click on the rendered suggestion
list entry `i` (only possible while the dropdown is open and the entry
exists).  `blur` is focus loss with the flag telling whether focus moved into
the suggestion list (PlaceAutocomplete.tsx lines 165–172). -/
inductive Ev
  | edit (s : String)
  | search (q : String) (o : SearchOutcome)
  | key (k : Key)
  | click (i : ℕ)
  | blur (focusInList : Bool)

/-- One event step of the combined component. -/
def step (tzl : ℚ → ℚ → Option String) (e : Ev) (st : AppState) : AppState :=
  match e with
  | .edit s => { st with value := s, selectedPlace := none }
  | .search q o => (searchEffect q o st).1
  | .key k => handleKeyDown tzl k st
  | .click i =>
      if st.isOpen then
        match st.suggestions.get? i with
        | some suggestion => selectSuggestion tzl suggestion st
        | none => st
      else st
  | .blur focusInList => if focusInList then st else { st with isOpen := false }

/-- Run a list of events from a state. -/
def run (tzl : ℚ → ℚ → Option String) (st : AppState) (evs : List Ev) : AppState :=
  evs.foldl (fun s e => step tzl e s) st

/-- Whether event `e`, fired in state `st`, performs Selection (calls
`selectSuggestion`). -/
def isSelection (e : Ev) (st : AppState) : Bool :=
  match e with
  | .key .enter =>
      st.isOpen && decide (0 ≤ st.selectedIndex)
        && (st.suggestions.get? st.selectedIndex.toNat).isSome
  | .click i => st.isOpen && (st.suggestions.get? i).isSome
  | _ => false

/-- Instrumented step for C4: alongside the state, track the ghost flag
"a text edit has occurred since the last Selection (or no Selection has
happened yet)". -/
def stepG (tzl : ℚ → ℚ → Option String) (p : AppState × Bool) (e : Ev) :
    AppState × Bool :=
  (step tzl e p.1,
    match e with
    | .edit _ => true
    | _ => if isSelection e p.1 then false else p.2)

/-- Run the instrumented semantics from the initial state. -/
def runG (tzl : ℚ → ℚ → Option String) (evs : List Ev) : AppState × Bool :=
  evs.foldl (stepG tzl) (initState, true)

/-!
The `AstrologyForm` submission (src/unnamed/part_001 lines 100–173).
-/

/-- The validated text fields of the form (`FormData` minus the optional
`place` object, which the component takes from `selectedPlace` instead). -/
structure FormData where
  fullName : String
  birthDate : Ymd
  birthTime : String
  email : String
deriving DecidableEq

/-- Form state visible to `onSubmit`: the entered values and the `birthPlace`
field error.  `onSubmit` never writes the values; the only mutation it can
perform is `form.setError('birthPlace', …)`. -/
structure FormSt where
  data : FormData
  birthPlaceError : Option String
deriving DecidableEq

/-- The nested `place` object of the webhook payload (part_001 lines 120–131). -/
structure PayloadPlace where
  city : String
  admin : String
  country : String
  countryCode : String
  lat : ℚ
  lon : ℚ
  timezone : String
  timezoneOffset : String
  provider : String
  placeId : String
deriving DecidableEq

/-- The webhook payload (part_001 lines 115–132). -/
structure Payload where
  fullName : String
  birthDate : String
  birthTime : String
  email : String
  place : PayloadPlace
deriving DecidableEq

/-- A settled `fetch` response: HTTP status, the `content-type` header
(`none` when absent), the body (served to `text()` and `blob()`), and
whether `json()` would parse it successfully. -/
structure FetchResponse where
  status : ℕ
  contentType : Option String
  body : String
  jsonOk : Bool
deriving DecidableEq

/-- JS `res.ok`: status in the inclusive range 200–299. -/
def FetchResponse.isOk (res : FetchResponse) : Bool :=
  200 ≤ res.status && res.status < 300

/-- Where `window.location.href` was pointed: the object URL materialized
from the response body (part_001 lines 161–163). -/
inductive NavTarget
  | objectUrlOf (body : String)
deriving DecidableEq

/-- Environment of one submission: the build-time webhook URL
(`none` = the env var was undefined), the IANA offset database at the
submission instant, the browser's local offset, the instant itself, and the
outcome of the single `fetch` (`.error ()` = rejected promise). -/
structure SubmitEnv where
  webhookUrl : Option String
  zoneDb : String → ℤ
  localOff : ℤ
  now : ℤ
  network : Except Unit FetchResponse

/-- Observable effects of one `onSubmit` call. -/
structure SubmitOut where
  alerts : List String
  requests : List Payload
  docReplaced : Option String
  navigatedTo : Option NavTarget
  consoleErrors : ℕ
deriving DecidableEq

/-- Field error message set when submitting without a resolved place. -/
def selectCityMsg : String := "Selecione uma cidade das sugestões."

/-- Alert shown when the webhook URL is not configured. -/
def configMissingMsg : String := "Configuração do servidor ausente. Tente novamente mais tarde."

/-- The single generic failure alert of the catch block. -/
def genericFailMsg : String := "Não foi possível gerar o relatório agora. Tente novamente."

/-- The payload built by `onSubmit` (part_001 lines 113–132), including the
`timezoneOffset` computed by `getTimezoneOffsetISO` at submission time. -/
def mkPayload (env : SubmitEnv) (data : FormData) (pl : Place) : Payload :=
  { fullName := data.fullName
  , birthDate := formatYMD data.birthDate
  , birthTime := data.birthTime
  , email := data.email
  , place :=
    { city := pl.city
    , admin := jsOrOpt pl.admin ""
    , country := pl.country
    , countryCode := pl.countryCode
    , lat := pl.lat
    , lon := pl.lon
    , timezone := pl.timezone
    , timezoneOffset := getTimezoneOffsetISO (env.zoneDb pl.timezone) env.localOff env.now
    , provider := pl.provider
    , placeId := pl.placeId } }

/-- The handler `onSubmit` (part_001 lines 102–173).  Guard order as in the source:
missing place → field error and return; falsy `WEBHOOK_URL` (undefined or
empty) → console error, config alert, return; then one POST of the payload;
a rejected fetch or `!res.ok` lands in the catch block (one console error,
one generic alert); otherwise branch on the `content-type` header —
`text/html` replaces the document, `application/pdf` navigates to an object
URL of the body, anything else is a best-effort `json()` whose failure is
swallowed by `.catch(() => ({}))`. -/
def onSubmit (env : SubmitEnv) (st : FormSt) (selectedPlace : Option Place) :
    FormSt × SubmitOut :=
  match selectedPlace with
  | none =>
      ({ st with birthPlaceError := some selectCityMsg },
       { alerts := [], requests := [], docReplaced := none, navigatedTo := none
       , consoleErrors := 0 })
  | some pl =>
      if jsOrOpt env.webhookUrl "" = "" then
        (st, { alerts := [configMissingMsg], requests := [], docReplaced := none
             , navigatedTo := none, consoleErrors := 1 })
      else
        let payload := mkPayload env st.data pl
        match env.network with
        | .error _ =>
            (st, { alerts := [genericFailMsg], requests := [payload]
                 , docReplaced := none, navigatedTo := none, consoleErrors := 1 })
        | .ok res =>
            if res.isOk = false then
              (st, { alerts := [genericFailMsg], requests := [payload]
                   , docReplaced := none, navigatedTo := none, consoleErrors := 1 })
            else
              let ct := res.contentType.getD ""
              if jsIncludes ct "text/html" then
                (st, { alerts := [], requests := [payload]
                     , docReplaced := some res.body, navigatedTo := none
                     , consoleErrors := 0 })
              else if jsIncludes ct "application/pdf" then
                (st, { alerts := [], requests := [payload], docReplaced := none
                     , navigatedTo := some (NavTarget.objectUrlOf res.body)
                     , consoleErrors := 0 })
              else
                (st, { alerts := [], requests := [payload], docReplaced := none
                     , navigatedTo := none, consoleErrors := 0 })

/-- The guard `isFormValid` (part_001 line 100):
`form.formState.isValid && !!selectedPlace?.timezone`. -/
def isFormValid (formStateValid : Bool) (selectedPlace : Option Place) : Bool :=
  formStateValid &&
    (match selectedPlace with
     | none => false
     | some pl => pl.timezone ≠ "")

/-- The submit button's `disabled={!isFormValid}` (part_001 line 352). -/
def submitDisabled (formStateValid : Bool) (selectedPlace : Option Place) : Bool :=
  !(isFormValid formStateValid selectedPlace)

/-!
Concrete fixtures used by witnesses and counterexamples.
-/

/-- A concrete `tz-lookup` oracle that always succeeds. -/
def tzl0 : ℚ → ℚ → Option String := fun _ _ => some "America/Sao_Paulo"

/-- A concrete Geoapify suggestion for São Paulo. -/
def sug0 : PlaceSuggestion :=
  { properties :=
    { formatted := "São Paulo, SP, Brazil"
    , name := some "São Paulo"
    , city := some "São Paulo"
    , state := some "SP"
    , country := some "Brazil"
    , country_code := some "br"
    , lat := -23
    , lon := -46
    , place_id := "p1"
    , timezone := some { name := some "America/Sao_Paulo" } } }

/-- The resolved São Paulo `Place`. -/
def placeSP : Place :=
  { city := "São Paulo"
  , admin := some "SP"
  , country := "Brazil"
  , countryCode := "br"
  , lat := -23
  , lon := -46
  , timezone := "America/Sao_Paulo"
  , provider := "geoapify"
  , placeId := "p1" }

/-- Concrete validated form data with birth date 2024-06-15. -/
def dataSP : FormData :=
  { fullName := "Maria Silva"
  , birthDate := { year := 2024, month := 6, day := 15 }
  , birthTime := "14:30"
  , email := "maria@example.com" }

/-- Concrete form state built from `dataSP`, no field error. -/
def formSt0 : FormSt := { data := dataSP, birthPlaceError := none }

/-- A concrete IANA database at 2024-06-15: São Paulo is at UTC−03:00. -/
def zoneDb0 : String → ℤ := fun z => if z = "America/Sao_Paulo" then -180 else 0

/-- Submission environment for C1: configured webhook, browser running in
UTC (local offset 0), submission instant 2024-06-15T14:30:00Z
(epoch 1718461800000 ms); the network outcome is irrelevant to the payload. -/
def envC1 : SubmitEnv :=
  { webhookUrl := some "https://example.com/webhook"
  , zoneDb := zoneDb0
  , localOff := 0
  , now := 1718461800000
  , network := Except.error () }

/-- Submission environment with the webhook URL undefined. -/
def envC9 : SubmitEnv :=
  { webhookUrl := none
  , zoneDb := zoneDb0
  , localOff := -180
  , now := 1718461800000
  , network := Except.error () }

/-- A reachable stale state: dropdown open, highlighted index 0, but the
suggestion list was emptied by a failed search (see `trace10`). -/
def stStale : AppState :=
  { value := "Sab"
  , suggestions := []
  , isLoading := false
  , isOpen := true
  , selectedIndex := 0
  , selectedPlace := none
  , birthPlaceError := false }

/-- Event trace reaching a stale-index state: type, search succeeds with one
suggestion, ArrowDown highlights it, type again, the next search fails and
empties the list without resetting the index or closing the dropdown. -/
def trace10 : List Ev :=
  [Ev.edit "Sa", Ev.search "Sa" (SearchOutcome.success [sug0]), Ev.key Key.down,
   Ev.edit "Sab", Ev.search "Sab" SearchOutcome.failure]

/-- The state reached by `trace10`. -/
def st10 : AppState := run tzl0 initState trace10

/-- A successful HTML response. -/
def res5 : FetchResponse :=
  { status := 200
  , contentType := some "text/html; charset=utf-8"
  , body := "<h1>ok</h1>"
  , jsonOk := true }

/-- Submission environment whose fetch resolves with the HTML response. -/
def env5 : SubmitEnv :=
  { webhookUrl := some "https://example.com/webhook"
  , zoneDb := zoneDb0
  , localOff := -180
  , now := 1718461800000
  , network := Except.ok res5 }

/-!
Supporting lemmas.
-/

/-- JS `Math.round(Δ / 60000 + g)`  (with `Δ`, `g` integers) in exact integer
arithmetic: justification for the integer formulation used in
`getTimezoneOffsetISO`. -/
theorem jsRound_div60000 (delta g : ℤ) :
    jsRound ((delta : ℚ) / 60000 + (g : ℚ)) = (delta + 60000 * g + 30000).fdiv 60000 := by
  rw [jsRound, Int.fdiv_eq_ediv _ (by norm_num)]
  have h : (delta : ℚ) / 60000 + (g : ℚ) + 1 / 2
      = ((delta + 60000 * g + 30000 : ℤ) : ℚ) / ((60000 : ℕ) : ℚ) := by
    push_cast
    ring
  rw [h, Rat.floor_intCast_div_natCast]
  norm_num

/-- The lookup-with-fallback never returns the empty string. -/
theorem tzLookupOrUTC_ne_empty (tzl : ℚ → ℚ → Option String) (lat lon : ℚ) :
    tzLookupOrUTC tzl lat lon ≠ "" := by
  unfold tzLookupOrUTC
  cases h : tzl lat lon with
  | none => decide
  | some r =>
      show jsOr r "UTC" ≠ ""
      unfold jsOr
      by_cases hr : r = ""
      · rw [if_pos hr]
        decide
      · rw [if_neg hr]
        exact hr

/-- The helper `getTimezone` never returns the empty string. -/
theorem getTimezone_ne_empty (tzl : ℚ → ℚ → Option String) (lat lon : ℚ)
    (apiTimezone : Option String) : getTimezone tzl lat lon apiTimezone ≠ "" := by
  unfold getTimezone
  cases apiTimezone with
  | none => exact tzLookupOrUTC_ne_empty tzl lat lon
  | some s =>
      show (if s = "" then tzLookupOrUTC tzl lat lon else s) ≠ ""
      by_cases hs : s = ""
      · rw [if_pos hs]
        exact tzLookupOrUTC_ne_empty tzl lat lon
      · rw [if_neg hs]
        exact hs

/-!
Claims.
-/

/-- Claim C1 (code-bug evidence).  The claim says the payload's `birthDate` is
`"2024-06-15"` and `timezoneOffset` equals the zone's actual UTC offset
`"-03:00"` for `America/Sao_Paulo` at 2024-06-15, and that in general
`getTimezoneOffsetISO` returns the zone's offset with `+` for zones ahead of
UTC.  The `birthDate` part holds, but the offset computed by the source's
`toLocaleString`-reparse arithmetic also depends on the *browser's* local
offset: with the browser on UTC (`envC1`, local offset 0) the payload carries
`"+03:00"`, not the zone's actual offset `specOffsetString (-180) = "-03:00"`;
the code produces the correct string only when the browser's local offset
equals the zone's offset (last conjunct). -/
theorem C1_timezoneOffset_divergence :
    (onSubmit envC1 formSt0 (some placeSP)).2.requests = [mkPayload envC1 dataSP placeSP]
  ∧ (mkPayload envC1 dataSP placeSP).birthDate = "2024-06-15"
  ∧ (mkPayload envC1 dataSP placeSP).place.timezoneOffset = "+03:00"
  ∧ specOffsetString (-180) = "-03:00"
  ∧ getTimezoneOffsetISO (-180) (-180) 1718461800000 = "-03:00" := by
  refine ⟨?_, by decide, by decide, by decide, by decide⟩
  decide

/-- Claim C2.  `getTimezone` returns a provider-supplied (truthy) timezone name
verbatim; otherwise it returns the offline lookup's result, falling back to
exactly `"UTC"` when the lookup throws (oracle `none`) or returns a falsy
value; it never returns the empty string (and, being total, never propagates
an exception), so every `Place` built by `selectSuggestion` has a non-empty
timezone. -/
theorem C2_getTimezone_contract (tzl : ℚ → ℚ → Option String) (lat lon : ℚ)
    (apiTimezone : Option String) (suggestion : PlaceSuggestion) :
    (∀ s, apiTimezone = some s → s ≠ "" → getTimezone tzl lat lon apiTimezone = s)
  ∧ ((apiTimezone = none ∨ apiTimezone = some "") →
      getTimezone tzl lat lon apiTimezone = tzLookupOrUTC tzl lat lon)
  ∧ (∀ r, tzl lat lon = some r → r ≠ "" → tzLookupOrUTC tzl lat lon = r)
  ∧ ((tzl lat lon = none ∨ tzl lat lon = some "") → tzLookupOrUTC tzl lat lon = "UTC")
  ∧ getTimezone tzl lat lon apiTimezone ≠ ""
  ∧ (mkPlace tzl suggestion).timezone ≠ "" := by
  refine ⟨?_, ?_, ?_, ?_, getTimezone_ne_empty tzl lat lon apiTimezone, ?_⟩
  · rintro s rfl hs
    show (if s = "" then tzLookupOrUTC tzl lat lon else s) = s
    rw [if_neg hs]
  · rintro (rfl | rfl)
    · rfl
    · show (if "" = "" then tzLookupOrUTC tzl lat lon else "") = tzLookupOrUTC tzl lat lon
      rw [if_pos rfl]
  · intro r hr hne
    unfold tzLookupOrUTC
    rw [hr]
    show jsOr r "UTC" = r
    unfold jsOr
    rw [if_neg hne]
  · rintro (h | h) <;> (unfold tzLookupOrUTC; rw [h])
    rfl
  · exact getTimezone_ne_empty tzl _ _ _

/-- Claim C3.  The submit button is disabled exactly when the text-field
validation fails, no `Place` is resolved, or the resolved place's timezone is
empty; and `onSubmit` with no resolved place sets the `birthPlace` field
error and returns without issuing any request (or any other effect). -/
theorem C3_disabled_iff_and_place_guard (formStateValid : Bool)
    (selectedPlace : Option Place) :
    (submitDisabled formStateValid selectedPlace = true ↔
      (formStateValid = false ∨ selectedPlace = none ∨
        ∃ pl, selectedPlace = some pl ∧ pl.timezone = ""))
  ∧ (∀ (env : SubmitEnv) (st : FormSt),
      onSubmit env st none
        = ({ st with birthPlaceError := some selectCityMsg },
           { alerts := [], requests := [], docReplaced := none, navigatedTo := none
           , consoleErrors := 0 })) := by
  constructor
  · cases formStateValid with
    | false => simp [submitDisabled, isFormValid]
    | true =>
        cases selectedPlace with
        | none => simp [submitDisabled, isFormValid]
        | some pl => simp [submitDisabled, isFormValid]
  · intro env st
    rfl

/-- A search completion never touches the resolved place. -/
theorem searchEffect_selectedPlace (q : String) (o : SearchOutcome) (st : AppState) :
    (searchEffect q o st).1.selectedPlace = st.selectedPlace := by
  unfold searchEffect
  by_cases h : q.length < 2
  · rw [if_pos h]
  · rw [if_neg h]
    cases o <;> rfl

/-- An event that does not perform Selection and is not an edit leaves the
resolved place unchanged. -/
theorem step_selectedPlace_of_not_selection (tzl : ℚ → ℚ → Option String)
    (e : Ev) (st : AppState) (hsel : isSelection e st = false)
    (hed : ∀ s, e ≠ Ev.edit s) :
    (step tzl e st).selectedPlace = st.selectedPlace := by
  cases e with
  | edit s => exact absurd rfl (hed s)
  | search q o => exact searchEffect_selectedPlace q o st
  | blur focusInList =>
      show ((if focusInList = true then st else { st with isOpen := false })).selectedPlace
          = st.selectedPlace
      by_cases h : focusInList = true
      · rw [if_pos h]
      · rw [if_neg h]
  | click i =>
      show ((if st.isOpen = true then
          match st.suggestions.get? i with
          | some suggestion => selectSuggestion tzl suggestion st
          | none => st
        else st)).selectedPlace = st.selectedPlace
      by_cases hop : st.isOpen = true
      · rw [if_pos hop]
        cases hget : st.suggestions.get? i with
        | none => rfl
        | some suggestion =>
            exfalso
            simp [isSelection, hop] at hsel
            rw [List.get?_eq_none.mpr hsel] at hget
            cases hget
      · rw [if_neg hop]
  | key k =>
      show (handleKeyDown tzl k st).selectedPlace = st.selectedPlace
      unfold handleKeyDown
      by_cases hop : st.isOpen = false
      · rw [if_pos hop]
      · rw [if_neg hop]
        cases k with
        | down => rfl
        | up => rfl
        | escape => rfl
        | other => rfl
        | enter =>
            show ((if 0 ≤ st.selectedIndex then
                match st.suggestions.get? st.selectedIndex.toNat with
                | some suggestion => selectSuggestion tzl suggestion st
                | none => st
              else st)).selectedPlace = st.selectedPlace
            by_cases hge : 0 ≤ st.selectedIndex
            · rw [if_pos hge]
              cases hget : st.suggestions.get? st.selectedIndex.toNat with
              | none => rfl
              | some suggestion =>
                  exfalso
                  simp [isSelection, hge] at hsel
                  have hopT : st.isOpen = true := by
                    revert hop
                    cases st.isOpen <;> simp
                  have hlen := hsel hopT
                  have hlt : st.selectedIndex.toNat < st.suggestions.length := by
                    by_contra hc
                    push_neg at hc
                    rw [List.get?_eq_none.mpr hc] at hget
                    cases hget
                  omega
            · rw [if_neg hge]

/-- One instrumented step preserves the C4 invariant: a non-null resolved
place implies no edit since the last Selection. -/
theorem stepG_invariant (tzl : ℚ → ℚ → Option String) (p : AppState × Bool) (e : Ev)
    (h : p.1.selectedPlace ≠ none → p.2 = false) :
    (stepG tzl p e).1.selectedPlace ≠ none → (stepG tzl p e).2 = false := by
  intro hne
  cases e with
  | edit s =>
      exfalso
      exact hne rfl
  | search q o =>
      show (if isSelection (Ev.search q o) p.1 then false else p.2) = false
      rw [if_neg (by simp [isSelection])]
      refine h ?_
      rwa [show (stepG tzl p (Ev.search q o)).1.selectedPlace = p.1.selectedPlace from
        searchEffect_selectedPlace q o p.1] at hne
  | blur focusInList =>
      show (if isSelection (Ev.blur focusInList) p.1 then false else p.2) = false
      rw [if_neg (by simp [isSelection])]
      refine h ?_
      rwa [show (stepG tzl p (Ev.blur focusInList)).1.selectedPlace = p.1.selectedPlace from
        step_selectedPlace_of_not_selection tzl _ _ (by simp [isSelection]) (by intro s hs; cases hs)] at hne
  | key k =>
      show (if isSelection (Ev.key k) p.1 then false else p.2) = false
      by_cases hsel : isSelection (Ev.key k) p.1 = true
      · rw [if_pos hsel]
      · rw [if_neg (by simpa using hsel)]
        refine h ?_
        rwa [show (stepG tzl p (Ev.key k)).1.selectedPlace = p.1.selectedPlace from
          step_selectedPlace_of_not_selection tzl _ _ (by simpa using hsel)
            (by intro s hs; cases hs)] at hne
  | click i =>
      show (if isSelection (Ev.click i) p.1 then false else p.2) = false
      by_cases hsel : isSelection (Ev.click i) p.1 = true
      · rw [if_pos hsel]
      · rw [if_neg (by simpa using hsel)]
        refine h ?_
        rwa [show (stepG tzl p (Ev.click i)).1.selectedPlace = p.1.selectedPlace from
          step_selectedPlace_of_not_selection tzl _ _ (by simpa using hsel)
            (by intro s hs; cases hs)] at hne

/-- The C4 invariant is preserved along any event list. -/
theorem foldl_stepG_invariant (tzl : ℚ → ℚ → Option String) :
    ∀ (evs : List Ev) (p : AppState × Bool),
      (p.1.selectedPlace ≠ none → p.2 = false) →
      ((evs.foldl (stepG tzl) p).1.selectedPlace ≠ none →
        (evs.foldl (stepG tzl) p).2 = false) := by
  intro evs
  induction evs with
  | nil => intro p h; exact h
  | cons e rest ih =>
      intro p h
      exact ih (stepG tzl p e) (stepG_invariant tzl p e h)

/-- Claim C4.  Every text edit immediately nulls the resolved place (the
`onChange` handler calls `onPlaceSelect(null)`), and along every event trace
from the initial state, a non-null `selectedPlace` implies that no text edit
has occurred since the last Selection (ghost flag of `runG`). -/
theorem C4_edit_clears_place (tzl : ℚ → ℚ → Option String) :
    (∀ (s : String) (st : AppState), (step tzl (Ev.edit s) st).selectedPlace = none)
  ∧ (∀ evs : List Ev,
      (runG tzl evs).1.selectedPlace ≠ none → (runG tzl evs).2 = false) := by
  constructor
  · intro s st
    rfl
  · intro evs
    exact foldl_stepG_invariant tzl evs (initState, true) (fun hne => absurd rfl hne)

/-- Witness for C4 at a concrete trace: type, search success, highlight,
Enter-select; the resolved place is non-null and the ghost flag confirms no
edit since that selection. -/
theorem C4_witness :
    (runG tzl0 [Ev.edit "Sa", Ev.search "Sa" (SearchOutcome.success [sug0]),
      Ev.key Key.down, Ev.key Key.enter]).2 = false :=
  (C4_edit_clears_place tzl0).2 _ (by decide)

/-- With a configured (truthy) webhook URL, the config guard of `onSubmit`
does not fire. -/
theorem jsOrOpt_webhook_ne_empty {u : String} (hne : u ≠ "") :
    jsOrOpt (some u) "" = "" ↔ False := by
  show (jsOr u "" = "") ↔ False
  unfold jsOr
  rw [if_neg hne]
  exact iff_false_intro hne

/-- Claim C5.  After a successful POST (`res.ok`), `onSubmit` branches on the
declared content type: a header containing `text/html` replaces the document
with the response text and returns (the one recorded request is the only
one); a header containing `application/pdf` (and not `text/html`) navigates
to an object URL materialized from the body; any other content type is a
best-effort `json()` whose parse failure is swallowed — the observable
outcome does not depend on whether the parse succeeds, and nothing is
alerted or logged. -/
theorem C5_content_type_branching (env : SubmitEnv) (st : FormSt) (pl : Place)
    (res : FetchResponse) (u : String)
    (hu : env.webhookUrl = some u) (hne : u ≠ "")
    (hnet : env.network = Except.ok res) (hok : res.isOk = true) :
    (jsIncludes (res.contentType.getD "") "text/html" = true →
      onSubmit env st (some pl)
        = (st, { alerts := [], requests := [mkPayload env st.data pl]
               , docReplaced := some res.body, navigatedTo := none
               , consoleErrors := 0 }))
  ∧ (jsIncludes (res.contentType.getD "") "text/html" = false →
     jsIncludes (res.contentType.getD "") "application/pdf" = true →
      onSubmit env st (some pl)
        = (st, { alerts := [], requests := [mkPayload env st.data pl]
               , docReplaced := none
               , navigatedTo := some (NavTarget.objectUrlOf res.body)
               , consoleErrors := 0 }))
  ∧ (jsIncludes (res.contentType.getD "") "text/html" = false →
     jsIncludes (res.contentType.getD "") "application/pdf" = false →
      onSubmit env st (some pl)
        = (st, { alerts := [], requests := [mkPayload env st.data pl]
               , docReplaced := none, navigatedTo := none, consoleErrors := 0 })
      ∧ (∀ b, onSubmit { env with network := Except.ok { res with jsonOk := b } } st
                (some pl)
              = onSubmit env st (some pl))) := by
  have hw : (jsOrOpt env.webhookUrl "" = "") ↔ False := by
    rw [hu]
    exact jsOrOpt_webhook_ne_empty hne
  refine ⟨?_, ?_, ?_⟩
  · intro hhtml
    simp [onSubmit, hw, hnet, hok, hhtml]
  · intro hhtml hpdf
    simp [onSubmit, hw, hnet, hok, hhtml, hpdf]
  · intro hhtml hpdf
    constructor
    · simp [onSubmit, hw, hnet, hok, hhtml, hpdf]
    · intro b
      have hw2 : (jsOrOpt ({ env with network := Except.ok { res with jsonOk := b }
          } : SubmitEnv).webhookUrl "" = "") ↔ False := hw
      have hok2 : ({ res with jsonOk := b } : FetchResponse).isOk = true := hok
      have hhtml2 : jsIncludes (({ res with jsonOk := b } : FetchResponse).contentType.getD "")
          "text/html" = false := hhtml
      have hpdf2 : jsIncludes (({ res with jsonOk := b } : FetchResponse).contentType.getD "")
          "application/pdf" = false := hpdf
      simp [onSubmit, hw, hw2, hnet, hok, hok2, hhtml, hhtml2, hpdf, hpdf2, mkPayload]

/-- Claim C6.  A rejected fetch, and any non-success status, is caught inside
`onSubmit`: one console log, exactly one generic alert, no retry (the single
recorded request), no document replacement or navigation, and the returned
form state is the input state unchanged (entered values intact, no
rollback). -/
theorem C6_failure_single_alert (env : SubmitEnv) (st : FormSt) (pl : Place)
    (u : String) (hu : env.webhookUrl = some u) (hne : u ≠ "") :
    (env.network = Except.error () →
      onSubmit env st (some pl)
        = (st, { alerts := [genericFailMsg], requests := [mkPayload env st.data pl]
               , docReplaced := none, navigatedTo := none, consoleErrors := 1 }))
  ∧ (∀ res : FetchResponse, env.network = Except.ok res → res.isOk = false →
      onSubmit env st (some pl)
        = (st, { alerts := [genericFailMsg], requests := [mkPayload env st.data pl]
               , docReplaced := none, navigatedTo := none, consoleErrors := 1 })) := by
  have hw : (jsOrOpt env.webhookUrl "" = "") ↔ False := by
    rw [hu]
    exact jsOrOpt_webhook_ne_empty hne
  constructor
  · intro hnet
    simp [onSubmit, hw, hnet]
  · intro res hnet hok
    simp [onSubmit, hw, hnet, hok]

/-- Claim C9.  With no resolved-place shortcut in the way (a place is
resolved), an absent webhook URL aborts the submission inside `onSubmit`
with one console log and one user-visible alert, and no POST is issued; the
guard lives in `onSubmit`, so the condition is detected at submission time
(the model has no startup-time check at all). -/
theorem C9_missing_webhook (env : SubmitEnv) (st : FormSt) (pl : Place)
    (hw : env.webhookUrl = none) :
    onSubmit env st (some pl)
      = (st, { alerts := [configMissingMsg], requests := [], docReplaced := none
             , navigatedTo := none, consoleErrors := 1 }) := by
  simp [onSubmit, hw, jsOrOpt]

/-- Claim C7.  For every debounced query shorter than 2 characters, the search
effect issues no geocoding request (count 0), clears the suggestions, and
closes the dropdown, whatever the would-be network outcome. -/
theorem C7_short_query_no_request (q : String) (o : SearchOutcome) (st : AppState)
    (h : q.length < 2) :
    searchEffect q o st = ({ st with suggestions := [], isOpen := false }, 0) := by
  unfold searchEffect
  rw [if_pos h]

/-- Witness for C7 at the one-character query `"a"` in the stale state. -/
theorem C7_witness :
    searchEffect "a" SearchOutcome.failure stStale
      = ({ stStale with suggestions := [], isOpen := false }, 0) :=
  C7_short_query_no_request "a" SearchOutcome.failure stStale (by decide)

/-- Claim C8, counterexample.  The claim reads `Down` as "advances the
highlighted index by 1 clamped to the last suggestion" — i.e. the clamp
`min (index+1) (length−1)` of `specKeyDown`.  In the reachable stale state
`stStale` (dropdown open, index 0, suggestion list emptied by a failed
search; reached by `trace10`), the handler leaves the index at 0 while the
claimed transition function clamps it to −1, so the two differ. -/
theorem C8_counterexample :
    handleKeyDown tzl0 Key.down stStale ≠ specKeyDown tzl0 Key.down stStale := by
  decide

/-- Claim C8, amended.  While the dropdown is closed every key is a no-op.
Whenever the highlighted index does not already exceed the last suggestion
(`selectedIndex ≤ length − 1`, which holds in every state not produced by
the stale-index failure path), the handler implements exactly the claimed
transition table; `Up`, `Enter` and `Escape` moreover match it in every
state.  The one divergence is `Down` on a stale index beyond the last
suggestion, which leaves the state unchanged instead of clamping. -/
theorem C8_keyboard_machine_amended (tzl : ℚ → ℚ → Option String) (st : AppState) :
    (st.isOpen = false → ∀ k, handleKeyDown tzl k st = st)
  ∧ (st.selectedIndex ≤ (st.suggestions.length : ℤ) - 1 →
      ∀ k, handleKeyDown tzl k st = specKeyDown tzl k st)
  ∧ (handleKeyDown tzl Key.up st = specKeyDown tzl Key.up st)
  ∧ (handleKeyDown tzl Key.enter st = specKeyDown tzl Key.enter st)
  ∧ (handleKeyDown tzl Key.escape st = specKeyDown tzl Key.escape st)
  ∧ ((st.suggestions.length : ℤ) - 1 < st.selectedIndex →
      handleKeyDown tzl Key.down st = st) := by
  have hup : handleKeyDown tzl Key.up st = specKeyDown tzl Key.up st := by
    unfold handleKeyDown specKeyDown
    by_cases hop : st.isOpen = false
    · rw [if_pos hop, if_pos hop]
    · rw [if_neg hop, if_neg hop]
      have : (if 0 < st.selectedIndex then st.selectedIndex - 1 else -1)
          = (max (st.selectedIndex - 1) (-1)) := by
        split_ifs <;> omega
      rw [this]
  have henter : handleKeyDown tzl Key.enter st = specKeyDown tzl Key.enter st := by
    unfold handleKeyDown specKeyDown
    rfl
  have hescape : handleKeyDown tzl Key.escape st = specKeyDown tzl Key.escape st := by
    unfold handleKeyDown specKeyDown
    rfl
  have hother : handleKeyDown tzl Key.other st = specKeyDown tzl Key.other st := by
    unfold handleKeyDown specKeyDown
    rfl
  have hdown : st.selectedIndex ≤ (st.suggestions.length : ℤ) - 1 →
      handleKeyDown tzl Key.down st = specKeyDown tzl Key.down st := by
    intro hle
    unfold handleKeyDown specKeyDown
    by_cases hop : st.isOpen = false
    · rw [if_pos hop, if_pos hop]
    · rw [if_neg hop, if_neg hop]
      have : (if st.selectedIndex < (st.suggestions.length : ℤ) - 1 then
            st.selectedIndex + 1 else st.selectedIndex)
          = (min (st.selectedIndex + 1) ((st.suggestions.length : ℤ) - 1)) := by
        split_ifs <;> omega
      rw [this]
  refine ⟨?_, ?_, hup, henter, hescape, ?_⟩
  · intro hop k
    unfold handleKeyDown
    rw [if_pos hop]
  · intro hle k
    cases k with
    | down => exact hdown hle
    | up => exact hup
    | enter => exact henter
    | escape => exact hescape
    | other => exact hother
  · intro hgt
    unfold handleKeyDown
    by_cases hop : st.isOpen = false
    · rw [if_pos hop]
    · rw [if_neg hop]
      have : (if st.selectedIndex < (st.suggestions.length : ℤ) - 1 then
            st.selectedIndex + 1 else st.selectedIndex) = st.selectedIndex := by
        rw [if_neg (by omega)]
      rw [this]

/-- Witness for the amended C8 in a healthy open state: `Down` from index −1
over a one-element list agrees with the claimed clamp transition. -/
theorem C8_witness :
    handleKeyDown tzl0 Key.down
        { initState with isOpen := true, suggestions := [sug0] }
      = specKeyDown tzl0 Key.down
        { initState with isOpen := true, suggestions := [sug0] } :=
  (C8_keyboard_machine_amended tzl0
    { initState with isOpen := true, suggestions := [sug0] }).2.1 (by decide) Key.down

/-- Claim C10.  The stale state (index 0, empty suggestion list, dropdown
open) is reachable — `trace10` reaches it via a success, a highlight, and a
failed search that clears the list without resetting the index — and in any
such state the existence guard `suggestions[selectedIndex]` makes `Enter` a
no-op: no Selection happens and the state is unchanged. -/
theorem C10_enter_guard :
    (st10.isOpen = true ∧ st10.selectedIndex = 0 ∧ st10.suggestions = [])
  ∧ (∀ (tzl : ℚ → ℚ → Option String) (st : AppState),
      0 ≤ st.selectedIndex →
      st.suggestions.get? st.selectedIndex.toNat = none →
      handleKeyDown tzl Key.enter st = st) := by
  constructor
  · refine ⟨by decide, by decide, by decide⟩
  · intro tzl st hge hget
    unfold handleKeyDown
    by_cases hop : st.isOpen = false
    · rw [if_pos hop]
    · rw [if_neg hop]
      show (if 0 ≤ st.selectedIndex then
          match st.suggestions.get? st.selectedIndex.toNat with
          | some suggestion => selectSuggestion tzl suggestion st
          | none => st
        else st) = st
      rw [if_pos hge, hget]

/-- Witness for C10: `Enter` in the concretely reached stale state `st10`
changes nothing. -/
theorem C10_witness : handleKeyDown tzl0 Key.enter st10 = st10 :=
  C10_enter_guard.2 tzl0 st10 (by decide) (by decide)

/-- Witness for C2: a provider-supplied name is used verbatim; a throwing
lookup with no provider name yields `"UTC"`; the concretely constructed
place has a non-empty timezone. -/
theorem C2_witness :
    getTimezone tzl0 (-23) (-46) (some "America/Bahia") = "America/Bahia"
  ∧ getTimezone (fun _ _ => none) (-23) (-46) none = "UTC"
  ∧ (mkPlace tzl0 sug0).timezone ≠ "" := by
  refine ⟨(C2_getTimezone_contract tzl0 (-23) (-46) (some "America/Bahia") sug0).1
      "America/Bahia" rfl (by decide), ?_,
    (C2_getTimezone_contract tzl0 (-23) (-46) none sug0).2.2.2.2.2⟩
  have h1 := (C2_getTimezone_contract (fun _ _ => none) (-23) (-46) none sug0).2.1
    (Or.inl rfl)
  have h2 := (C2_getTimezone_contract (fun _ _ => none) (-23) (-46) none sug0).2.2.2.1
    (Or.inl rfl)
  exact h1.trans h2

/-- Witness for C5: the concrete HTML response replaces the document. -/
theorem C5_witness :
    onSubmit env5 formSt0 (some placeSP)
      = (formSt0,
         { alerts := [], requests := [mkPayload env5 dataSP placeSP]
         , docReplaced := some "<h1>ok</h1>", navigatedTo := none
         , consoleErrors := 0 }) :=
  (C5_content_type_branching env5 formSt0 placeSP res5 "https://example.com/webhook"
    rfl (by decide) rfl (by decide)).1 (by decide)

/-- Witness for C6: a rejected fetch produces exactly one generic alert and
leaves the form state unchanged. -/
theorem C6_witness :
    onSubmit envC1 formSt0 (some placeSP)
      = (formSt0,
         { alerts := [genericFailMsg], requests := [mkPayload envC1 dataSP placeSP]
         , docReplaced := none, navigatedTo := none, consoleErrors := 1 }) :=
  (C6_failure_single_alert envC1 formSt0 placeSP "https://example.com/webhook"
    rfl (by decide)).1 rfl

/-- Witness for C9: with the webhook URL undefined, the concrete submission
aborts with the config alert and no request. -/
theorem C9_witness :
    onSubmit envC9 formSt0 (some placeSP)
      = (formSt0,
         { alerts := [configMissingMsg], requests := [], docReplaced := none
         , navigatedTo := none, consoleErrors := 1 }) :=
  C9_missing_webhook envC9 formSt0 placeSP rfl

end Astrobot
